import Mathlib

/-!
# Shallow embedding of `src/podcast_filter.py` (Spotify Podcast Episode Filter)

This file embeds the logic of `podcast_filter.py` into Lean 4 and proves the
spec's claims about it.  External collaborators (the Spotify API via
`spotipy`, the `re` module's regex engine, YAML configuration, the console)
are modelled as explicit data passed into the embedded functions:

* an episode-listing API call `sp.show_episodes(show_id, limit, offset)` is a
  function `Nat → Nat → Except Err (Option Page)` (`Except.error` models a
  raised exception, `none` models a falsy response);
* a compiled regex is represented by its search function `String → Bool`
  (the meaning of `re.search(pattern, name, re.IGNORECASE)`), and a pattern
  that fails to compile (raising `re.error`) carries `none`;
* the paginated playlist listing is the list of pages the API would serve;
* `print` calls are dropped: they do not affect the returned values.
-/

set_option autoImplicit false

universe u

variable {α : Type u}

/-- Error value standing for a raised Python exception. -/
abbrev Err := String

/-- An episode as consumed by the script: `episode['uri']` and
`episode['name']`. -/
structure Episode where
  uri : String
  name : String
deriving DecidableEq, Repr

/-- One page returned by `sp.show_episodes`: the `items` list and the
truthiness of the `next` field. -/
structure Page where
  items : List Episode
  next : Bool
deriving Repr

/-! ## String helpers

Python string operations (`in`, `split`, `lower`) re-implemented over
`List Char` by structural recursion, so that concrete witnesses evaluate by
`decide` in the kernel. -/

/-- `hasPre p s` : `p` is a prefix of `s`. -/
def hasPre : List Char → List Char → Bool
  | [], _ => true
  | _ :: _, [] => false
  | a :: as, b :: bs => a = b && hasPre as bs

/-- `hasSub p s` : `p` occurs contiguously somewhere in `s`
(Python's `p in s`). -/
def hasSub (p : List Char) : List Char → Bool
  | [] => p.isEmpty
  | c :: rest => hasPre p (c :: rest) || hasSub p rest

/-- Python's `sub in s` on strings. -/
def strContains (sub s : String) : Bool :=
  hasSub sub.data s.data

/-- Lowercase a character list (Python's `str.lower`). -/
def lowerL (s : List Char) : List Char :=
  s.map Char.toLower

/-- `stripPre p s` : `some t` when `s = p ++ t`, else `none`. -/
def stripPre : List Char → List Char → Option (List Char)
  | [], s => some s
  | _ :: _, [] => none
  | a :: as, b :: bs => if a = b then stripPre as bs else none

/-- First occurrence split: `breakFirst a as s = some (pre, tail)` when the
separator `a :: as` first occurs in `s` after the field `pre`, with `tail`
the remainder after the separator; `none` when the separator does not
occur. -/
def breakFirst (a : Char) (as : List Char) : List Char → Option (List Char × List Char)
  | [] => none
  | c :: rest =>
    match stripPre (a :: as) (c :: rest) with
    | some tail => some ([], tail)
    | none =>
      match breakFirst a as rest with
      | some (pre, tail) => some (c :: pre, tail)
      | none => none

/-- Python's `str.split(sep)` for a non-empty separator `a :: as`, with
explicit fuel for structural termination; `fuel ≥ s.length + 1` always
suffices since each recursive call consumes past one separator occurrence. -/
def splitOnFuel (a : Char) (as : List Char) : Nat → List Char → List (List Char)
  | 0, s => [s]
  | fuel + 1, s =>
    match breakFirst a as s with
    | none => [s]
    | some (pre, tail) => pre :: splitOnFuel a as fuel tail

/-- Python's `str.split(sep)` (empty separator never used by the script). -/
def splitOnS (sep s : String) : List String :=
  match sep.data with
  | [] => [s]
  | a :: as => (splitOnFuel a as (s.data.length + 1) s.data).map fun l => ⟨l⟩

/-! ## Pattern Matcher (`matches_patterns`, `src/podcast_filter.py:95-103`) -/

/-- A compiled regex pattern.  `compiled = some f` means the pattern compiles
and `f name` is the truthiness of `re.search(pattern, name, re.IGNORECASE)`;
`compiled = none` means compiling the pattern raises `re.error`. -/
structure Pattern where
  compiled : Option (String → Bool)

/-- Modelled from the spec: for a literal pattern (one without regex
metacharacters), Python's `re.search(pattern, s, re.IGNORECASE)` is truthy
iff the pattern occurs in `s` ignoring case, anywhere (non-anchored,
substring-style). -/
def containsCI (pat s : String) : Bool :=
  hasSub (lowerL pat.data) (lowerL s.data)

/-- A valid literal pattern, interpreted case-insensitively as a substring
search: the model of a metacharacter-free regex under `re.IGNORECASE`. -/
def Pattern.lit (pat : String) : Pattern :=
  ⟨some (containsCI pat)⟩

/-- An invalid pattern: compiling it raises `re.error`. -/
def Pattern.invalid : Pattern := ⟨none⟩

/-- Embedding of `matches_patterns(episode_name, patterns)`
(`src/podcast_filter.py:95-103`): try each pattern in order; a pattern that
compiles and matches returns `True` immediately; an invalid pattern is
skipped (the `except re.error` branch prints a warning and continues); if no
pattern matches, return `False`. -/
def matches_patterns (episode_name : String) : List Pattern → Bool
  | [] => false
  | p :: rest =>
    match p.compiled with
    | some search =>
      if search episode_name then true
      else matches_patterns episode_name rest
    | none => matches_patterns episode_name rest

/-! ## Deduplication Set Builder
(`get_playlist_episode_uris`, `src/podcast_filter.py:44-60`) -/

/-- The `track` object of a playlist item: its `type` and `uri` fields. -/
structure PTrack where
  type : String
  uri : String
deriving DecidableEq, Repr

/-- One playlist item; `track = none` models a falsy `item['track']`. -/
structure PItem where
  track : Option PTrack
deriving DecidableEq, Repr

/-- One page of `sp.playlist_items` / `sp.next`: the `items` list and the
truthiness of the `next` field. -/
structure PPage where
  items : List PItem
  next : Bool
deriving Repr

/-- The inner `for item in results['items']` loop: add the track uri to the
set when the item has a truthy `track` whose `type` is `"episode"`. -/
def addEpisodeUris (acc : Finset String) (items : List PItem) : Finset String :=
  items.foldl (fun a it =>
    match it.track with
    | some t => if t.type = "episode" then insert t.uri a else a
    | none => a) acc

/-- The `while results:` pagination loop: process the current page; follow
`next` to the following page while it is truthy (an exhausted page stream —
`sp.next` returning a falsy value — also ends the loop). -/
def playlistPagesLoop : List PPage → Finset String → Finset String
  | [], acc => acc
  | page :: rest, acc =>
    let acc2 := addEpisodeUris acc page.items
    if page.next then playlistPagesLoop rest acc2 else acc2

/-- Embedding of `get_playlist_episode_uris(sp, playlist_id)`
(`src/podcast_filter.py:44-60`), with the collaborator's paginated listing
supplied as the list of pages it would serve in order. -/
def get_playlist_episode_uris (pages : List PPage) : Finset String :=
  playlistPagesLoop pages ∅

/-- The uris of the episode-typed entries of an item list, in order
(spec-side description of what one page contributes). -/
def episodeUrisOf (items : List PItem) : List String :=
  items.filterMap fun it =>
    match it.track with
    | some t => if t.type = "episode" then some t.uri else none
    | none => none

/-- Spec-side: the uris one page contributes. -/
def pageEpisodeUris (page : PPage) : List String :=
  episodeUrisOf page.items

/-- Spec-side: the pages actually consumed — every page up to and including
the first whose `next` field reports no further page. -/
def consumedPages : List PPage → List PPage
  | [] => []
  | page :: rest => if page.next then page :: consumedPages rest else [page]

/-! ## Episode Fetcher (`get_show_episodes`, `src/podcast_filter.py:63-92`) -/

/-- The `while len(episodes) < limit:` pagination loop of
`get_show_episodes`.  `api current_limit offset` is the call
`sp.show_episodes(show_id, limit=current_limit, offset=offset)`:
`Except.error` is a raised exception (caught by the caller's `try`),
`ok none` a falsy response.  The loop body appends at least one episode per
iteration while `episodes.length < limit`, so it runs at most `limit`
iterations; the `fuel` argument (always called with `limit + 1`, strictly
more than the remaining `limit - episodes.length`) only makes that
termination structural, and its base case is never reached. -/
def fetchLoopF (api : Nat → Nat → Except Err (Option Page)) :
    Nat → Nat → List Episode → Nat → Except Err (List Episode)
  | 0, _, episodes, _ => .ok episodes
  | fuel + 1, limit, episodes, offset =>
    if episodes.length < limit then
      -- current_limit = min(batch_size, remaining), batch_size = 50,
      -- remaining = limit - len(episodes)
      match api (min 50 (limit - episodes.length)) offset with
      | .error e => .error e
      | .ok none => .ok episodes
      | .ok (some results) =>
        if results.items.isEmpty then .ok episodes
        else if !results.next
            || results.items.length < min 50 (limit - episodes.length) then
          .ok (episodes ++ results.items)
        else
          fetchLoopF api fuel limit (episodes ++ results.items)
            (offset + results.items.length)
    else .ok episodes

/-- Embedding of `get_show_episodes(sp, show_id, limit)`
(`src/podcast_filter.py:63-92`): run the pagination loop from an empty list
and offset 0 and truncate to `limit`; the surrounding `try` turns any raised
exception into an empty result. -/
def get_show_episodes (api : Nat → Nat → Except Err (Option Page))
    (limit : Nat) : List Episode :=
  match fetchLoopF api (limit + 1) limit [] 0 with
  | .ok episodes => episodes.take limit
  | .error _ => []

/-- Modelled from the spec: the honest external episode listing for a show
whose full episode list is `source`, answering each request with the
`current_limit`-sized slice at `offset` and a `next` page pointer exactly
when episodes remain beyond the requested window. -/
def show_episodes_api (source : List Episode) :
    Nat → Nat → Except Err (Option Page) :=
  fun lim off =>
    .ok (some ⟨(source.drop off).take lim, decide (off + lim < source.length)⟩)

/-- The sequence of `(collected_so_far, current_limit, offset)` triples for
the requests the pagination loop issues: the loop instrumented to record,
for each `sp.show_episodes` call, the episode count already collected, the
batch size requested, and the offset passed (same fuel discipline as
`fetchLoopF`). -/
def fetchCallsF (api : Nat → Nat → Except Err (Option Page)) :
    Nat → Nat → List Episode → Nat → List (Nat × Nat × Nat)
  | 0, _, _, _ => []
  | fuel + 1, limit, episodes, offset =>
    if episodes.length < limit then
      (episodes.length, min 50 (limit - episodes.length), offset) ::
        match api (min 50 (limit - episodes.length)) offset with
        | .error _ => []
        | .ok none => []
        | .ok (some results) =>
          if results.items.isEmpty then []
          else if !results.next
              || results.items.length < min 50 (limit - episodes.length) then []
          else
            fetchCallsF api fuel limit (episodes ++ results.items)
              (offset + results.items.length)
    else []

/-! ## Filter Processor (`process_filter`, `src/podcast_filter.py:106-178`)
and Run Controller (`main`, `src/podcast_filter.py:219-237`) -/

instance (l : List α) : Decidable (l = []) :=
  match l with
  | [] => isTrue rfl
  | _ :: _ => isFalse (by simp)

/-- Embedding of `extract_show_id(show_input)`
(`src/podcast_filter.py:29-34`): a show URL is reduced to the segment after
the last `show/`, truncated at the first `?`; anything else is returned
verbatim.  (`split(sep)` never yields an empty list, so Python's `[-1]` and
`[0]` are total; the `getLastD`/`headD` defaults are never used.) -/
def extract_show_id (show_input : String) : String :=
  if strContains "open.spotify.com/show/" show_input then
    ((splitOnS "?" ((splitOnS "show/" show_input).getLastD "")).headD "")
  else show_input

/-- Embedding of `extract_playlist_id(playlist_input)`
(`src/podcast_filter.py:37-41`). -/
def extract_playlist_id (playlist_input : String) : String :=
  if strContains "open.spotify.com/playlist/" playlist_input then
    ((splitOnS "?" ((splitOnS "playlist/" playlist_input).getLastD "")).headD "")
  else playlist_input

/-- One filter configuration after the `.get` defaulting performed at
`src/podcast_filter.py:108-112`: a missing `show_id` or
`target_playlist_id` is the empty string, missing `name_patterns` is the
empty list, missing `max_episodes` is 50. -/
structure FilterConfig where
  name : String
  show_id : String
  name_patterns : List Pattern
  target_playlist_id : String
  max_episodes : Nat

/-- The external-API behaviour one `process_filter` run observes:
the outcome of `sp.show(show_id)` (its `name` on success), the playlist
pages served to `get_playlist_episode_uris` (or a raise inside it), the
show-episodes endpoint, and the outcome of `sp.playlist_add_items`. -/
structure SpotifyEnv where
  show_result : Except Err String
  playlist_pages : Except Err (List PPage)
  episodes_api : Nat → Nat → Except Err (Option Page)
  add_items_result : Except Err Unit

/-- The `for episode in episodes:` loop of `process_filter`
(`src/podcast_filter.py:152-164`): skip an episode whose uri is already in
the playlist (`continue`); otherwise keep its uri when its name matches a
pattern.  `found_count` is the length of this list. -/
def filterEpisodes (existing_episodes : Finset String)
    (patterns : List Pattern) : List Episode → List String
  | [] => []
  | episode :: rest =>
    if episode.uri ∈ existing_episodes then
      filterEpisodes existing_episodes patterns rest
    else if matches_patterns episode.name patterns then
      episode.uri :: filterEpisodes existing_episodes patterns rest
    else
      filterEpisodes existing_episodes patterns rest

/-- Embedding of `process_filter(sp, filter_config)`
(`src/podcast_filter.py:106-178`): validate the rule, look up the show,
build the existing-episode set, fetch episodes, filter them, then submit
the candidates in one batched `playlist_add_items` call whose failure is
caught and leaves `added_count = 0`. -/
def process_filter (env : SpotifyEnv) (cfg : FilterConfig) : Nat × Nat :=
  let show_id := extract_show_id cfg.show_id
  let patterns := cfg.name_patterns
  let playlist_id := extract_playlist_id cfg.target_playlist_id
  if show_id = "" ∨ patterns = [] ∨ playlist_id = "" then (0, 0)
  else
    match env.show_result with
    | .error _ => (0, 0)
    | .ok _ =>
      match env.playlist_pages with
      | .error _ => (0, 0)
      | .ok pages =>
        let existing_episodes := get_playlist_episode_uris pages
        let episodes := get_show_episodes env.episodes_api cfg.max_episodes
        if episodes = [] then (0, 0)
        else
          let matching_episodes :=
            filterEpisodes existing_episodes patterns episodes
          let found_count := matching_episodes.length
          let added_count :=
            if matching_episodes ≠ [] then
              match env.add_items_result with
              | .ok _ => matching_episodes.length
              | .error _ => 0
            else 0
          (found_count, added_count)

/-- What one iteration of the `for i, filter_config in enumerate(filters)`
loop in `main` observes: `process_filter` returned a pair, or an exception
escaped it. -/
inductive Outcome where
  | ok (found added : Nat)
  | exn (e : Err)

/-- Whether an outcome is an escaping exception. -/
def isExn : Outcome → Bool
  | .exn _ => true
  | .ok _ _ => false

/-- The counters accumulated by `main` (`src/podcast_filter.py:220-223`). -/
structure RunTotals where
  total_found : Nat
  total_added : Nat
  successful_filters : Nat
  failed_filters : Nat
deriving DecidableEq, Repr

/-- All-zero initial counters. -/
def initTotals : RunTotals := ⟨0, 0, 0, 0⟩

/-- Embedding of the filter loop of `main` (`src/podcast_filter.py:225-237`):
a returned pair feeds the totals and counts one successful filter; an
escaping exception counts one failed filter, and iteration continues only
when `continue_on_error` is true. -/
def runFilters (continue_on_error : Bool) :
    List Outcome → RunTotals → RunTotals
  | [], s => s
  | o :: rest, s =>
    match o with
    | .ok found added =>
      runFilters continue_on_error rest
        { s with total_found := s.total_found + found,
                 total_added := s.total_added + added,
                 successful_filters := s.successful_filters + 1 }
    | .exn _ =>
      let s2 := { s with failed_filters := s.failed_filters + 1 }
      if continue_on_error then runFilters continue_on_error rest s2 else s2

/-- Spec-side: the outcomes actually processed when iteration stops at the
first escaping exception. -/
def stopAtFirstExn : List Outcome → List Outcome
  | [] => []
  | .ok f a :: rest => .ok f a :: stopAtFirstExn rest
  | .exn e :: _ => [.exn e]

/-- The §8 scenario's show: 10 episodes, 3 with "interview" in the title. -/
def scenarioEpisodes : List Episode :=
  [⟨"spotify:episode:e1", "Morning news 1"⟩,
   ⟨"spotify:episode:e2", "Interview with Alice"⟩,
   ⟨"spotify:episode:e3", "Morning news 2"⟩,
   ⟨"spotify:episode:e4", "Morning news 3"⟩,
   ⟨"spotify:episode:e5", "The interview: Bob"⟩,
   ⟨"spotify:episode:e6", "Morning news 4"⟩,
   ⟨"spotify:episode:e7", "Morning news 5"⟩,
   ⟨"spotify:episode:e8", "INTERVIEW special"⟩,
   ⟨"spotify:episode:e9", "Morning news 6"⟩,
   ⟨"spotify:episode:e10", "Morning news 7"⟩]

/-- The §8 scenario's environment: the playlist already holds episode e5,
every call succeeds. -/
def scenarioEnv : SpotifyEnv :=
  { show_result := .ok "S1 show",
    playlist_pages :=
      .ok [⟨[⟨some ⟨"episode", "spotify:episode:e5"⟩⟩], false⟩],
    episodes_api := show_episodes_api scenarioEpisodes,
    add_items_result := .ok () }

/-- The §8 scenario's rule: pattern "interview", max 10 episodes. -/
def scenarioCfg : FilterConfig :=
  { name := "Interviews", show_id := "S1",
    name_patterns := [Pattern.lit "interview"],
    target_playlist_id := "P1", max_episodes := 10 }

/-- A rule whose `target_playlist_id` is missing (defaulted to `""`). -/
def cfgMissingPlaylist : FilterConfig :=
  { name := "No playlist", show_id := "S1",
    name_patterns := [Pattern.lit "interview"],
    target_playlist_id := "", max_episodes := 50 }

/-- An environment whose show lookup raises. -/
def envShowFail : SpotifyEnv :=
  { show_result := .error "404", playlist_pages := .ok [],
    episodes_api := fun _ _ => .ok none, add_items_result := .ok () }

/-- An environment whose playlist listing raises. -/
def envPlaylistFail : SpotifyEnv :=
  { show_result := .ok "S1 show", playlist_pages := .error "403",
    episodes_api := fun _ _ => .ok none, add_items_result := .ok () }

/-- The §8 scenario's environment, except that the batched add call
raises. -/
def envAddFail : SpotifyEnv :=
  { show_result := .ok "S1 show",
    playlist_pages :=
      .ok [⟨[⟨some ⟨"episode", "spotify:episode:e5"⟩⟩], false⟩],
    episodes_api := show_episodes_api scenarioEpisodes,
    add_items_result := .error "rate limited" }

theorem matches_patterns_eq_true_iff (episode_name : String)
    (patterns : List Pattern) :
    matches_patterns episode_name patterns = true ↔
      ∃ p ∈ patterns, ∃ f, p.compiled = some f ∧ f episode_name = true := by
  induction patterns with
  | nil => simp [matches_patterns]
  | cons p rest ih =>
    cases hp : p.compiled with
    | none =>
      simp only [matches_patterns, hp, ih]
      constructor
      · rintro ⟨q, hq, f, hf, hfe⟩
        exact ⟨q, List.mem_cons_of_mem p hq, f, hf, hfe⟩
      · rintro ⟨q, hq, f, hf, hfe⟩
        rcases List.mem_cons.mp hq with rfl | hq
        · rw [hp] at hf
          exact Option.noConfusion hf
        · exact ⟨q, hq, f, hf, hfe⟩
    | some search =>
      simp only [matches_patterns, hp]
      by_cases hs : search episode_name = true
      · rw [if_pos hs]
        simp only [true_iff]
        exact ⟨p, List.mem_cons_self p rest, search, hp, hs⟩
      · rw [if_neg hs, ih]
        constructor
        · rintro ⟨q, hq, f, hf, hfe⟩
          exact ⟨q, List.mem_cons_of_mem p hq, f, hf, hfe⟩
        · rintro ⟨q, hq, f, hf, hfe⟩
          rcases List.mem_cons.mp hq with rfl | hq
          · rw [hp] at hf
            injection hf with hfs
            subst hfs
            exact absurd hfe hs
          · exact ⟨q, hq, f, hf, hfe⟩

theorem matches_patterns_filter_valid (episode_name : String)
    (patterns : List Pattern) :
    matches_patterns episode_name patterns =
      matches_patterns episode_name
        (patterns.filter fun p => p.compiled.isSome) := by
  induction patterns with
  | nil => rfl
  | cons p rest ih =>
    cases hp : p.compiled with
    | none =>
      simp [matches_patterns, List.filter_cons, hp, ih]
    | some search =>
      simp only [matches_patterns, List.filter_cons, hp, Option.isSome_some,
        if_true]
      by_cases hs : search episode_name = true
      · simp [matches_patterns, hp, hs]
      · simp [matches_patterns, hp, hs, ih]

theorem mem_addEpisodeUris (x : String) (acc : Finset String)
    (items : List PItem) :
    x ∈ addEpisodeUris acc items ↔ x ∈ acc ∨ x ∈ episodeUrisOf items := by
  induction items generalizing acc with
  | nil => simp [addEpisodeUris, episodeUrisOf]
  | cons it rest ih =>
    cases ht : it.track with
    | none =>
      simp only [addEpisodeUris, List.foldl_cons, ht]
      simpa [episodeUrisOf, ht] using ih acc
    | some t =>
      by_cases hty : t.type = "episode"
      · simp only [addEpisodeUris, List.foldl_cons, ht, hty, if_true]
        rw [show (List.foldl _ (insert t.uri acc) rest) =
            addEpisodeUris (insert t.uri acc) rest from rfl, ih]
        simp only [Finset.mem_insert, episodeUrisOf, List.filterMap_cons, ht,
          hty, if_true, List.mem_cons]
        constructor
        · rintro (⟨rfl | hx⟩ | hx)
          · exact Or.inr (Or.inl rfl)
          · exact Or.inl hx
          · exact Or.inr (Or.inr (by simpa [episodeUrisOf] using hx))
        · rintro (hx | rfl | hx)
          · exact Or.inl (Or.inr hx)
          · exact Or.inl (Or.inl rfl)
          · exact Or.inr (by simpa [episodeUrisOf] using hx)
      · simp only [addEpisodeUris, List.foldl_cons, ht, hty, if_false]
        simpa [episodeUrisOf, ht, hty] using ih acc

theorem mem_playlistPagesLoop (x : String) (pages : List PPage)
    (acc : Finset String) :
    x ∈ playlistPagesLoop pages acc ↔
      x ∈ acc ∨ x ∈ (consumedPages pages).flatMap pageEpisodeUris := by
  induction pages generalizing acc with
  | nil => simp [playlistPagesLoop, consumedPages]
  | cons page rest ih =>
    have hloop : playlistPagesLoop (page :: rest) acc =
        if page.next then playlistPagesLoop rest (addEpisodeUris acc page.items)
        else addEpisodeUris acc page.items := rfl
    have hcons : consumedPages (page :: rest) =
        if page.next then page :: consumedPages rest else [page] := rfl
    by_cases hn : page.next
    · rw [hloop, hcons, if_pos hn, if_pos hn, ih, mem_addEpisodeUris]
      simp [pageEpisodeUris, or_assoc]
    · rw [hloop, hcons, if_neg hn, if_neg hn, mem_addEpisodeUris]
      simp [pageEpisodeUris]

theorem consumedPages_eq_self (pages : List PPage)
    (h : ∀ p ∈ pages.dropLast, p.next = true) :
    consumedPages pages = pages := by
  induction pages with
  | nil => rfl
  | cons page rest ih =>
    cases rest with
    | nil =>
      by_cases hn : page.next <;> simp [consumedPages, hn]
    | cons q qs =>
      have hp : page.next = true := h page (by simp)
      have hrest : ∀ p ∈ (q :: qs).dropLast, p.next = true := by
        intro p hp'
        exact h p (by simp [List.dropLast_cons₂] at hp' ⊢; exact Or.inr hp')
      have hq : consumedPages (page :: q :: qs) =
          if page.next then page :: consumedPages (q :: qs) else [page] := rfl
      rw [hq, if_pos hp, ih hrest]

/-- **C9.** `get_playlist_episode_uris` returns exactly the set of uris of
the entries whose underlying track type is `"episode"`, accumulated over
every page up to the first one reporting no further page (all pages, when
every non-final page reports a next page); entries of any other kind
contribute nothing. -/
theorem C9_playlist_episode_uris :
    (∀ pages : List PPage,
        get_playlist_episode_uris pages =
          ((consumedPages pages).flatMap pageEpisodeUris).toFinset) ∧
    (∀ pages : List PPage, (∀ p ∈ pages.dropLast, p.next = true) →
        get_playlist_episode_uris pages =
          (pages.flatMap pageEpisodeUris).toFinset) := by
  constructor
  · intro pages
    ext x
    rw [get_playlist_episode_uris, mem_playlistPagesLoop]
    simp
  · intro pages h
    have := consumedPages_eq_self pages h
    ext x
    rw [get_playlist_episode_uris, mem_playlistPagesLoop, this]
    simp

/-- Closed witness for the second conjunct of `C9_playlist_episode_uris`:
two pages, the first with a next pointer; an episode entry, a music-track
entry and a falsy-track entry; only the two episode uris are collected. -/
theorem C9_playlist_episode_uris_witness :
    get_playlist_episode_uris
        [⟨[⟨some ⟨"episode", "spotify:episode:a"⟩⟩,
           ⟨some ⟨"track", "spotify:track:b"⟩⟩], true⟩,
         ⟨[⟨none⟩, ⟨some ⟨"episode", "spotify:episode:c"⟩⟩], false⟩] =
      (["spotify:episode:a", "spotify:episode:c"] : List String).toFinset := by
  have h := (C9_playlist_episode_uris.2)
      [⟨[⟨some ⟨"episode", "spotify:episode:a"⟩⟩,
         ⟨some ⟨"track", "spotify:track:b"⟩⟩], true⟩,
       ⟨[⟨none⟩, ⟨some ⟨"episode", "spotify:episode:c"⟩⟩], false⟩]
      (by decide)
  rw [h]
  decide

theorem get_show_episodes_length_le
    (api : Nat → Nat → Except Err (Option Page)) (limit : Nat) :
    (get_show_episodes api limit).length ≤ limit := by
  rw [get_show_episodes]
  cases fetchLoopF api (limit + 1) limit [] 0 with
  | error e => simp
  | ok episodes =>
    show (episodes.take limit).length ≤ limit
    rw [List.length_take]
    omega

theorem fetchLoopF_show_episodes_api (source : List Episode) (limit : Nat) :
    ∀ fuel off, off ≤ source.length → limit - off < fuel →
      ∃ r, fetchLoopF (show_episodes_api source) fuel limit (source.take off)
              off = .ok r ∧
            r.take limit = source.take limit := by
  intro fuel
  induction fuel with
  | zero => intro off _ h2; omega
  | succ fuel ih =>
    intro off h1 h2
    have hlen : (source.take off).length = off := by
      rw [List.length_take]; omega
    by_cases hoff : off < limit
    case neg =>
      refine ⟨source.take off, ?_, ?_⟩
      · rw [fetchLoopF, if_neg (by rw [hlen]; exact hoff)]
      · rw [List.take_take, min_eq_left (by omega)]
    case pos =>
      have hguard : (source.take off).length < limit := by omega
      set cl := min 50 (limit - off) with hcl
      have hcl1 : 1 ≤ cl := by omega
      have hitems : ((source.drop off).take cl).length
          = min cl (source.length - off) := by
        rw [List.length_take, List.length_drop]
      by_cases hend : source.length ≤ off
      case pos =>
        have hofflen : off = source.length := le_antisymm h1 hend
        have hdrop : source.drop off = [] :=
          List.drop_eq_nil_of_le (by omega)
        refine ⟨source.take off, ?_, ?_⟩
        · rw [fetchLoopF, if_pos hguard, hlen, ← hcl]
          simp [show_episodes_api, hdrop]
        · rw [hofflen, List.take_length]
      case neg =>
        have hne : ((source.drop off).take cl).isEmpty = false := by
          cases hl : (source.drop off).take cl with
          | nil =>
            have hll := congrArg List.length hl
            rw [hitems] at hll
            simp at hll
            omega
          | cons a l => rfl
        by_cases hnext : off + cl < source.length
        case pos =>
          have hfull : ((source.drop off).take cl).length = cl := by
            rw [hitems]; omega
          obtain ⟨r, hr, hrt⟩ := ih (off + cl) (by omega) (by omega)
          refine ⟨r, ?_, hrt⟩
          rw [fetchLoopF, if_pos hguard, hlen, ← hcl]
          simp only [show_episodes_api]
          rw [if_neg (by simp [hne]), if_neg (by simp [hnext, hfull]),
            hfull, ← List.take_add]
          exact hr
        case neg =>
          refine ⟨source.take off ++ (source.drop off).take cl, ?_, ?_⟩
          · rw [fetchLoopF, if_pos hguard, hlen, ← hcl]
            simp only [show_episodes_api]
            rw [if_neg (by simp [hne]), if_pos (by simp [hnext])]
          · rw [← List.take_add, List.take_take]
            rcases le_total limit (off + cl) with hle | hle
            · rw [min_eq_left hle]
            · rw [min_eq_right hle, List.take_of_length_le (by omega),
                List.take_of_length_le (by omega)]

theorem get_show_episodes_api_eq (source : List Episode) (limit : Nat) :
    get_show_episodes (show_episodes_api source) limit = source.take limit := by
  have h := fetchLoopF_show_episodes_api source limit (limit + 1) 0
      (Nat.zero_le _) (by omega)
  rw [List.take_zero] at h
  rcases h with ⟨r, hr, hrt⟩
  rw [get_show_episodes, hr]
  exact hrt

theorem fetchCallsF_request_size
    (api : Nat → Nat → Except Err (Option Page)) :
    ∀ fuel limit episodes offset c,
      c ∈ fetchCallsF api fuel limit episodes offset →
      c.2.1 = min 50 (limit - c.1) ∧ c.1 < limit := by
  intro fuel
  induction fuel with
  | zero => intro limit episodes offset c hc; simp [fetchCallsF] at hc
  | succ fuel ih =>
    intro limit episodes offset c hc
    rw [fetchCallsF] at hc
    split at hc
    case isTrue hguard =>
      rcases List.mem_cons.mp hc with rfl | hc
      · exact ⟨rfl, hguard⟩
      · split at hc
        · exact absurd hc (List.not_mem_nil c)
        · exact absurd hc (List.not_mem_nil c)
        · split at hc
          · exact absurd hc (List.not_mem_nil c)
          · split at hc
            · exact absurd hc (List.not_mem_nil c)
            · exact ih _ _ _ _ hc
    case isFalse hguard => exact absurd hc (List.not_mem_nil c)

/-- **C2.** `get_show_episodes` returns at most `limit` episodes for every
behaviour of the external API; against the honest paginated listing of a
show it returns exactly the first `limit` episodes (hence exactly `limit`
of them when at least `limit` are available); every request the loop issues
asks for `min 50 (limit - collected_so_far)` items (50 is the API's batch
ceiling); and the loop stops early on an absent page, on a page whose
pagination reports no next page, and on a page shorter than requested. -/
theorem C2_get_show_episodes_spec :
    (∀ (api : Nat → Nat → Except Err (Option Page)) (limit : Nat),
        (get_show_episodes api limit).length ≤ limit) ∧
    (∀ (source : List Episode) (limit : Nat),
        get_show_episodes (show_episodes_api source) limit = source.take limit) ∧
    (∀ (source : List Episode) (limit : Nat), limit ≤ source.length →
        (get_show_episodes (show_episodes_api source) limit).length = limit) ∧
    (∀ (api : Nat → Nat → Except Err (Option Page)) (limit : Nat)
        (c : Nat × Nat × Nat), c ∈ fetchCallsF api (limit + 1) limit [] 0 →
        c.2.1 = min 50 (limit - c.1)) ∧
    (∀ (api : Nat → Nat → Except Err (Option Page)) (limit : Nat),
        0 < limit → api (min 50 limit) 0 = .ok none →
        get_show_episodes api limit = []) ∧
    (∀ (api : Nat → Nat → Except Err (Option Page)) (limit : Nat) (p : Page),
        0 < limit → api (min 50 limit) 0 = .ok (some p) →
        (p.next = false ∨ p.items.length < min 50 limit) →
        get_show_episodes api limit = p.items.take limit) := by
  refine ⟨get_show_episodes_length_le, get_show_episodes_api_eq, ?_, ?_, ?_, ?_⟩
  · intro source limit h
    rw [get_show_episodes_api_eq, List.length_take]
    omega
  · intro api limit c hc
    exact (fetchCallsF_request_size api _ _ _ _ c hc).1
  · intro api limit h0 hapi
    rw [get_show_episodes, fetchLoopF, if_pos (by simpa using h0)]
    simp only [List.length_nil, Nat.sub_zero]
    rw [hapi]
    simp
  · intro api limit p h0 hapi hstop
    have hcond : (!p.next || decide (p.items.length < min 50 limit)) = true := by
      rcases hstop with h | h
      · rw [h]; rfl
      · simp [h]
    by_cases hd : p.items = []
    · rw [get_show_episodes, fetchLoopF, if_pos (by simpa using h0)]
      simp only [List.length_nil, Nat.sub_zero]
      rw [hapi]
      simp [hd]
    · rcases List.exists_cons_of_ne_nil hd with ⟨a, l, hal⟩
      rw [get_show_episodes, fetchLoopF, if_pos (by simpa using h0)]
      simp only [List.length_nil, Nat.sub_zero]
      rw [hapi]
      dsimp only
      rw [if_neg (by simp [hal]), if_pos hcond]
      simp

/-- Closed witness for `C2_get_show_episodes_spec`: a 3-episode show fetched
with limit 2 yields exactly 2 episodes; the single request of that run asks
for `min 50 2` items at offset 0 with 0 collected; an absent first page
yields no episodes; a short final page is returned as fetched. -/
theorem C2_get_show_episodes_spec_witness :
    (get_show_episodes (show_episodes_api
        [⟨"u1", "n1"⟩, ⟨"u2", "n2"⟩, ⟨"u3", "n3"⟩]) 2).length = 2 ∧
    ((0, min 50 2, 0) : Nat × Nat × Nat).2.1
        = min 50 (2 - ((0, min 50 2, 0) : Nat × Nat × Nat).1) ∧
    get_show_episodes (fun _ _ => Except.ok none) 1 = [] ∧
    get_show_episodes (fun _ _ => Except.ok (some ⟨[⟨"u", "n"⟩], false⟩)) 5
      = [⟨"u", "n"⟩] := by
  refine ⟨C2_get_show_episodes_spec.2.2.1 _ 2 (by decide),
      C2_get_show_episodes_spec.2.2.2.1
        (show_episodes_api [⟨"u1", "n1"⟩, ⟨"u2", "n2"⟩, ⟨"u3", "n3"⟩]) 2
        (0, min 50 2, 0) (by decide),
      C2_get_show_episodes_spec.2.2.2.2.1 _ 1 (by decide) rfl, ?_⟩
  have h := C2_get_show_episodes_spec.2.2.2.2.2
      (fun _ _ => Except.ok (some ⟨[⟨"u", "n"⟩], false⟩)) 5
      ⟨[⟨"u", "n"⟩], false⟩ (by decide) rfl (Or.inl rfl)
  rw [h]
  rfl

/-- **C6.** Any raised error during episode fetching is absorbed: whenever
the pagination loop ends in an exception, `get_show_episodes` returns `[]`
(it does not raise — it is a total function into lists); in particular an
API that always fails yields the very same result as the honest listing of
a show with zero episodes, making the two indistinguishable. -/
theorem C6_fetch_error_returns_empty :
    (∀ (api : Nat → Nat → Except Err (Option Page)) (limit : Nat) (e : Err),
        fetchLoopF api (limit + 1) limit [] 0 = .error e →
        get_show_episodes api limit = []) ∧
    (∀ (e : Err) (limit : Nat),
        get_show_episodes (fun _ _ => .error e) limit = [] ∧
        get_show_episodes (fun _ _ => .error e) limit
          = get_show_episodes (show_episodes_api []) limit) := by
  constructor
  · intro api limit e he
    rw [get_show_episodes, he]
  · intro e limit
    have hz : get_show_episodes (show_episodes_api []) limit = [] := by
      rw [get_show_episodes_api_eq]
      simp
    have hf : get_show_episodes
        (fun _ _ => (.error e : Except Err (Option Page))) limit = [] := by
      cases limit with
      | zero => rfl
      | succ n =>
        rw [get_show_episodes, fetchLoopF, if_pos (by simp)]
    exact ⟨hf, hf.trans hz.symm⟩

/-- Closed witness for `C6_fetch_error_returns_empty`: an API raising
`HTTP 500` on every call produces the empty episode list. -/
theorem C6_fetch_error_returns_empty_witness :
    get_show_episodes (fun _ _ => Except.error "HTTP 500") 1 = [] :=
  C6_fetch_error_returns_empty.1 _ 1 "HTTP 500" rfl

/-- **C3.** `matches_patterns` returns `true` iff at least one pattern in the
sequence matches the title (each valid pattern's `search` function denoting
Python's case-insensitive, non-anchored `re.search`); the empty sequence
matches no title.  The last two conjuncts exhibit the case-insensitive,
substring-style behaviour concretely: the literal pattern `interview`
matches a title containing `INTERVIEW` in the middle, and fails on a title
not containing it. -/
theorem C3_matches_patterns_spec :
    (∀ episode_name patterns,
        matches_patterns episode_name patterns = true ↔
          ∃ p ∈ patterns, ∃ f, p.compiled = some f ∧ f episode_name = true) ∧
    (∀ episode_name, matches_patterns episode_name [] = false) ∧
    matches_patterns "Ep 12: The INTERVIEW special" [Pattern.lit "interview"]
        = true ∧
    matches_patterns "Ep 13: music only" [Pattern.lit "interview"] = false := by
  refine ⟨matches_patterns_eq_true_iff, fun _ => rfl, by decide, by decide⟩

/-- **C7.** An invalid (unparseable) pattern never aborts `matches_patterns`
(the function is total in the embedding: the `except re.error` branch merely
warns): it is skipped and every remaining pattern is still evaluated, so the
result is the result on the subsequence of valid patterns.  The second
conjunct shows a valid pattern placed after an invalid one is still used. -/
theorem C7_invalid_patterns_skipped :
    (∀ episode_name patterns,
        matches_patterns episode_name patterns =
          matches_patterns episode_name
            (patterns.filter fun p => p.compiled.isSome)) ∧
    (∀ episode_name f,
        matches_patterns episode_name [Pattern.invalid, ⟨some f⟩]
          = f episode_name) := by
  refine ⟨matches_patterns_filter_valid, fun episode_name f => ?_⟩
  simp [matches_patterns, Pattern.invalid]

theorem filterEpisodes_append (existing : Finset String)
    (patterns : List Pattern) (xs ys : List Episode) :
    filterEpisodes existing patterns (xs ++ ys) =
      filterEpisodes existing patterns xs
        ++ filterEpisodes existing patterns ys := by
  induction xs with
  | nil => simp [filterEpisodes]
  | cons a t ih =>
    by_cases ha : a.uri ∈ existing
    · simp [filterEpisodes, ha, ih]
    · by_cases hm : matches_patterns a.name patterns
      · simp [filterEpisodes, ha, hm, ih]
      · simp [filterEpisodes, ha, hm, ih]

theorem process_filter_invalid (env : SpotifyEnv) (cfg : FilterConfig)
    (h : extract_show_id cfg.show_id = "" ∨ cfg.name_patterns = []
        ∨ extract_playlist_id cfg.target_playlist_id = "") :
    process_filter env cfg = (0, 0) := by
  show (if extract_show_id cfg.show_id = "" ∨ cfg.name_patterns = []
      ∨ extract_playlist_id cfg.target_playlist_id = "" then ((0, 0) : Nat × Nat)
    else _) = (0, 0)
  rw [if_pos h]

theorem process_filter_show_error (env : SpotifyEnv) (cfg : FilterConfig)
    (e : Err) (he : env.show_result = .error e) :
    process_filter env cfg = (0, 0) := by
  obtain ⟨sr, pp, ea, ar⟩ := env
  have he2 : sr = Except.error e := he
  subst he2
  show (if extract_show_id cfg.show_id = "" ∨ cfg.name_patterns = []
      ∨ extract_playlist_id cfg.target_playlist_id = "" then ((0, 0) : Nat × Nat)
    else (0, 0)) = (0, 0)
  split <;> rfl

theorem process_filter_playlist_error (env : SpotifyEnv) (cfg : FilterConfig)
    (e : Err) (he : env.playlist_pages = .error e) :
    process_filter env cfg = (0, 0) := by
  obtain ⟨sr, pp, ea, ar⟩ := env
  have he2 : pp = Except.error e := he
  subst he2
  cases sr with
  | error e2 =>
    show (if extract_show_id cfg.show_id = "" ∨ cfg.name_patterns = []
        ∨ extract_playlist_id cfg.target_playlist_id = "" then ((0, 0) : Nat × Nat)
      else (0, 0)) = (0, 0)
    split <;> rfl
  | ok nm =>
    show (if extract_show_id cfg.show_id = "" ∨ cfg.name_patterns = []
        ∨ extract_playlist_id cfg.target_playlist_id = "" then ((0, 0) : Nat × Nat)
      else (0, 0)) = (0, 0)
    split <;> rfl

theorem process_filter_no_episodes (env : SpotifyEnv) (cfg : FilterConfig)
    (hfe : get_show_episodes env.episodes_api cfg.max_episodes = []) :
    process_filter env cfg = (0, 0) := by
  obtain ⟨sr, pp, ea, ar⟩ := env
  have hfe2 : get_show_episodes ea cfg.max_episodes = [] := hfe
  cases sr with
  | error e =>
    show (if extract_show_id cfg.show_id = "" ∨ cfg.name_patterns = []
        ∨ extract_playlist_id cfg.target_playlist_id = "" then ((0, 0) : Nat × Nat)
      else (0, 0)) = (0, 0)
    split <;> rfl
  | ok nm =>
    cases pp with
    | error e =>
      show (if extract_show_id cfg.show_id = "" ∨ cfg.name_patterns = []
          ∨ extract_playlist_id cfg.target_playlist_id = "" then ((0, 0) : Nat × Nat)
        else (0, 0)) = (0, 0)
      split <;> rfl
    | ok pages =>
      show (if extract_show_id cfg.show_id = "" ∨ cfg.name_patterns = []
          ∨ extract_playlist_id cfg.target_playlist_id = "" then ((0, 0) : Nat × Nat)
        else if get_show_episodes ea cfg.max_episodes = [] then (0, 0) else _)
        = (0, 0)
      simp [hfe2]

theorem process_filter_main_path (env : SpotifyEnv) (cfg : FilterConfig)
    (nm : String) (pages : List PPage)
    (hval : ¬(extract_show_id cfg.show_id = "" ∨ cfg.name_patterns = []
        ∨ extract_playlist_id cfg.target_playlist_id = ""))
    (hshow : env.show_result = .ok nm)
    (hpages : env.playlist_pages = .ok pages)
    (hfe : get_show_episodes env.episodes_api cfg.max_episodes ≠ []) :
    process_filter env cfg =
      ((filterEpisodes (get_playlist_episode_uris pages) cfg.name_patterns
          (get_show_episodes env.episodes_api cfg.max_episodes)).length,
        if filterEpisodes (get_playlist_episode_uris pages) cfg.name_patterns
            (get_show_episodes env.episodes_api cfg.max_episodes) ≠ [] then
          match env.add_items_result with
          | .ok _ => (filterEpisodes (get_playlist_episode_uris pages)
              cfg.name_patterns
              (get_show_episodes env.episodes_api cfg.max_episodes)).length
          | .error _ => 0
        else 0) := by
  obtain ⟨sr, pp, ea, ar⟩ := env
  have h1 : sr = Except.ok nm := hshow
  have h2 : pp = Except.ok pages := hpages
  subst h1 h2
  have hfe2 : get_show_episodes ea cfg.max_episodes ≠ [] := hfe
  show (if extract_show_id cfg.show_id = "" ∨ cfg.name_patterns = []
      ∨ extract_playlist_id cfg.target_playlist_id = "" then ((0, 0) : Nat × Nat)
    else if get_show_episodes ea cfg.max_episodes = [] then (0, 0)
    else _) = _
  rw [if_neg hval, if_neg hfe2]

theorem runFilters_true_counts (outs : List Outcome) :
    ∀ s : RunTotals,
      (runFilters true outs s).failed_filters
          = s.failed_filters + outs.countP isExn ∧
      (runFilters true outs s).successful_filters
          = s.successful_filters + outs.countP (fun o => !isExn o) := by
  induction outs with
  | nil => intro s; simp [runFilters]
  | cons o rest ih =>
    intro s
    cases o with
    | ok f a =>
      have h := ih (RunTotals.mk (s.total_found + f) (s.total_added + a)
        (s.successful_filters + 1) s.failed_filters)
      constructor
      · calc (runFilters true (Outcome.ok f a :: rest) s).failed_filters
            = (runFilters true rest (RunTotals.mk (s.total_found + f)
                (s.total_added + a) (s.successful_filters + 1)
                s.failed_filters)).failed_filters := rfl
          _ = s.failed_filters + rest.countP isExn := h.1
          _ = s.failed_filters + (Outcome.ok f a :: rest).countP isExn := by
              simp [List.countP_cons, isExn]
      · calc (runFilters true (Outcome.ok f a :: rest) s).successful_filters
            = (runFilters true rest (RunTotals.mk (s.total_found + f)
                (s.total_added + a) (s.successful_filters + 1)
                s.failed_filters)).successful_filters := rfl
          _ = s.successful_filters + 1 + rest.countP (fun o => !isExn o) := h.2
          _ = s.successful_filters
                + (Outcome.ok f a :: rest).countP (fun o => !isExn o) := by
              simp [List.countP_cons, isExn]
              omega
    | exn e =>
      have h := ih (RunTotals.mk s.total_found s.total_added
        s.successful_filters (s.failed_filters + 1))
      constructor
      · calc (runFilters true (Outcome.exn e :: rest) s).failed_filters
            = (runFilters true rest (RunTotals.mk s.total_found s.total_added
                s.successful_filters (s.failed_filters + 1))).failed_filters :=
              rfl
          _ = s.failed_filters + 1 + rest.countP isExn := h.1
          _ = s.failed_filters + (Outcome.exn e :: rest).countP isExn := by
              simp [List.countP_cons, isExn]
              omega
      · calc (runFilters true (Outcome.exn e :: rest) s).successful_filters
            = (runFilters true rest (RunTotals.mk s.total_found s.total_added
                s.successful_filters
                (s.failed_filters + 1))).successful_filters := rfl
          _ = s.successful_filters + rest.countP (fun o => !isExn o) := h.2
          _ = s.successful_filters
                + (Outcome.exn e :: rest).countP (fun o => !isExn o) := by
              simp [List.countP_cons, isExn]

theorem runFilters_false_eq (outs : List Outcome) :
    ∀ s, runFilters false outs s = runFilters true (stopAtFirstExn outs) s := by
  induction outs with
  | nil => intro s; rfl
  | cons o rest ih =>
    intro s
    cases o with
    | ok f a => exact ih _
    | exn e => rfl

/-- **C1.** An episode whose uri is already in the existing-episode set is
skipped before pattern matching, so it contributes to neither
`found_count` (matched) nor `added_count`: deleting any already-present
episode from the fetched sequence leaves the candidate list unchanged.  In
the spec's §8 scenario (10 fetched episodes, 3 with "interview" in the
title, one of them already in the playlist) `process_filter` returns
`matched_count = 2` and `added_count = 2`. -/
theorem C1_already_present_never_resubmitted :
    (∀ (existing : Finset String) (patterns : List Pattern)
        (l1 l2 : List Episode) (e : Episode), e.uri ∈ existing →
        filterEpisodes existing patterns (l1 ++ e :: l2)
          = filterEpisodes existing patterns (l1 ++ l2)) ∧
    process_filter scenarioEnv scenarioCfg = (2, 2) := by
  constructor
  · intro existing patterns l1 l2 e he
    rw [filterEpisodes_append, filterEpisodes_append]
    congr 1
    show filterEpisodes existing patterns (e :: l2)
        = filterEpisodes existing patterns l2
    rw [filterEpisodes, if_pos he]
  · decide

/-- Closed witness for `C1_already_present_never_resubmitted`: an episode
whose uri `u5` sits in the playlist set is dropped from the candidate list
even though its title matches. -/
theorem C1_already_present_never_resubmitted_witness :
    filterEpisodes {"u5"} [Pattern.lit "interview"]
        ([⟨"u1", "Interview A"⟩] ++ ⟨"u5", "Interview B"⟩ :: [⟨"u9", "news"⟩])
      = filterEpisodes {"u5"} [Pattern.lit "interview"]
        ([⟨"u1", "Interview A"⟩] ++ [⟨"u9", "news"⟩]) :=
  C1_already_present_never_resubmitted.1 {"u5"} [Pattern.lit "interview"]
    [⟨"u1", "Interview A"⟩] [⟨"u9", "news"⟩] ⟨"u5", "Interview B"⟩ (by decide)

/-- **C4.** On the main path with a non-empty candidate list, a failing
batched `playlist_add_items` call is caught: `process_filter` still returns
the `matched_count` computed during filtering together with
`added_count = 0` (it does not raise — it is a total function); a
successful call returns `added_count` equal to the number of candidates
submitted. -/
theorem C4_add_failure_keeps_matched_count :
    ∀ (env : SpotifyEnv) (cfg : FilterConfig) (nm : String)
      (pages : List PPage),
      ¬(extract_show_id cfg.show_id = "" ∨ cfg.name_patterns = []
          ∨ extract_playlist_id cfg.target_playlist_id = "") →
      env.show_result = .ok nm →
      env.playlist_pages = .ok pages →
      get_show_episodes env.episodes_api cfg.max_episodes ≠ [] →
      filterEpisodes (get_playlist_episode_uris pages) cfg.name_patterns
          (get_show_episodes env.episodes_api cfg.max_episodes) ≠ [] →
      (∀ e, env.add_items_result = .error e →
          process_filter env cfg =
            ((filterEpisodes (get_playlist_episode_uris pages)
                cfg.name_patterns
                (get_show_episodes env.episodes_api cfg.max_episodes)).length,
              0)) ∧
      (∀ u, env.add_items_result = .ok u →
          process_filter env cfg =
            ((filterEpisodes (get_playlist_episode_uris pages)
                cfg.name_patterns
                (get_show_episodes env.episodes_api cfg.max_episodes)).length,
              (filterEpisodes (get_playlist_episode_uris pages)
                cfg.name_patterns
                (get_show_episodes env.episodes_api cfg.max_episodes)).length)) := by
  intro env cfg nm pages hval hshow hpages hfe hm
  have hmain := process_filter_main_path env cfg nm pages hval hshow hpages hfe
  rw [if_pos hm] at hmain
  constructor
  · intro e he
    rw [hmain, he]
  · intro u hu
    rw [hmain, hu]

/-- Closed witness for `C4_add_failure_keeps_matched_count`: in the §8
scenario, a failing add call yields `(2, 0)`; the successful one yields
`(2, 2)`. -/
theorem C4_add_failure_keeps_matched_count_witness :
    process_filter envAddFail scenarioCfg = (2, 0) ∧
    process_filter scenarioEnv scenarioCfg = (2, 2) := by
  have h1 := (C4_add_failure_keeps_matched_count envAddFail scenarioCfg
      "S1 show" [⟨[⟨some ⟨"episode", "spotify:episode:e5"⟩⟩], false⟩]
      (by decide) rfl rfl (by decide) (by decide)).1 "rate limited" rfl
  have h2 := (C4_add_failure_keeps_matched_count scenarioEnv scenarioCfg
      "S1 show" [⟨[⟨some ⟨"episode", "spotify:episode:e5"⟩⟩], false⟩]
      (by decide) rfl rfl (by decide) (by decide)).2 () rfl
  exact ⟨h1.trans (by decide), h2.trans (by decide)⟩

/-- **C5.** The two-tier failure model: a failure `process_filter` handles
internally — show lookup, playlist listing, or episode fetch (which then
yields the empty list) — makes it return `(0, 0)` as an ordinary
(successful, `Outcome.ok`) return, so the run controller does not count it
as a failed filter; only an escaping exception (`Outcome.exn`) increments
`failed_filters`; with `continue_on_error = true` every outcome is
processed, with `false` iteration stops exactly at the first exception; the
controller is a total function into `RunTotals`, so final aggregates are
produced however iteration ends. -/
theorem C5_two_tier_failure_model :
    (∀ (env : SpotifyEnv) (cfg : FilterConfig) (e : Err),
        env.show_result = .error e → process_filter env cfg = (0, 0)) ∧
    (∀ (env : SpotifyEnv) (cfg : FilterConfig) (e : Err),
        env.playlist_pages = .error e → process_filter env cfg = (0, 0)) ∧
    (∀ (env : SpotifyEnv) (cfg : FilterConfig),
        get_show_episodes env.episodes_api cfg.max_episodes = [] →
        process_filter env cfg = (0, 0)) ∧
    (∀ (outs : List Outcome) (s : RunTotals),
        (runFilters true outs s).failed_filters
            = s.failed_filters + outs.countP isExn ∧
        (runFilters true outs s).successful_filters
            = s.successful_filters + outs.countP (fun o => !isExn o)) ∧
    (∀ (outs : List Outcome) (s : RunTotals),
        runFilters false outs s = runFilters true (stopAtFirstExn outs) s) :=
  ⟨process_filter_show_error, process_filter_playlist_error,
    process_filter_no_episodes,
    fun outs s => runFilters_true_counts outs s,
    fun outs s => runFilters_false_eq outs s⟩

/-- Closed witness for `C5_two_tier_failure_model`: a failing show lookup
and a failing playlist listing each yield the ordinary return `(0, 0)`, and
with `continue_on_error = false` a run over `[ok, exn, ok]` equals the run
over the outcomes up to and including the first exception. -/
theorem C5_two_tier_failure_model_witness :
    process_filter envShowFail scenarioCfg = (0, 0) ∧
    process_filter envPlaylistFail scenarioCfg = (0, 0) ∧
    runFilters false [Outcome.ok 1 1, Outcome.exn "boom", Outcome.ok 5 5]
        initTotals
      = runFilters true
          (stopAtFirstExn [Outcome.ok 1 1, Outcome.exn "boom", Outcome.ok 5 5])
          initTotals :=
  ⟨C5_two_tier_failure_model.1 envShowFail scenarioCfg "404" rfl,
   C5_two_tier_failure_model.2.1 envPlaylistFail scenarioCfg "403" rfl,
   C5_two_tier_failure_model.2.2.2.2
     [Outcome.ok 1 1, Outcome.exn "boom", Outcome.ok 5 5] initTotals⟩

/-- **C8.** A rule whose resolved show id, pattern list, or resolved
playlist id is empty is short-circuited: `process_filter` returns `(0, 0)`,
and the result is independent of the external environment (no external call
can influence it); being an ordinary return, it is not a run failure. -/
theorem C8_incomplete_rule_short_circuits :
    ∀ (env env2 : SpotifyEnv) (cfg : FilterConfig),
      (extract_show_id cfg.show_id = "" ∨ cfg.name_patterns = []
        ∨ extract_playlist_id cfg.target_playlist_id = "") →
      process_filter env cfg = (0, 0) ∧
      process_filter env cfg = process_filter env2 cfg :=
  fun env env2 cfg h =>
    ⟨process_filter_invalid env cfg h,
     (process_filter_invalid env cfg h).trans
       (process_filter_invalid env2 cfg h).symm⟩

/-- Closed witness for `C8_incomplete_rule_short_circuits`: a filter whose
`target_playlist_id` is missing yields `(0, 0)` under two different
environments. -/
theorem C8_incomplete_rule_short_circuits_witness :
    process_filter scenarioEnv cfgMissingPlaylist = (0, 0) ∧
    process_filter scenarioEnv cfgMissingPlaylist
      = process_filter envShowFail cfgMissingPlaylist :=
  C8_incomplete_rule_short_circuits scenarioEnv envShowFail cfgMissingPlaylist
    (by decide)

/-- **C10.** On every return path of `process_filter`, the returned pair
satisfies `added_count = 0` or `added_count = matched_count`, hence
`added_count ≤ matched_count`. -/
theorem C10_added_zero_or_eq_matched :
    ∀ (env : SpotifyEnv) (cfg : FilterConfig),
      ((process_filter env cfg).2 = 0
        ∨ (process_filter env cfg).2 = (process_filter env cfg).1) ∧
      (process_filter env cfg).2 ≤ (process_filter env cfg).1 := by
  intro env cfg
  have h : (process_filter env cfg).2 = 0
      ∨ (process_filter env cfg).2 = (process_filter env cfg).1 := by
    by_cases hval : (extract_show_id cfg.show_id = "" ∨ cfg.name_patterns = []
        ∨ extract_playlist_id cfg.target_playlist_id = "")
    · rw [process_filter_invalid env cfg hval]
      left; rfl
    · cases hsr : env.show_result with
      | error e =>
        rw [process_filter_show_error env cfg e hsr]
        left; rfl
      | ok nm =>
        cases hpp : env.playlist_pages with
        | error e =>
          rw [process_filter_playlist_error env cfg e hpp]
          left; rfl
        | ok pages =>
          by_cases hfe : get_show_episodes env.episodes_api cfg.max_episodes
              = []
          · rw [process_filter_no_episodes env cfg hfe]
            left; rfl
          · rw [process_filter_main_path env cfg nm pages hval hsr hpp hfe]
            by_cases hm : filterEpisodes (get_playlist_episode_uris pages)
                cfg.name_patterns
                (get_show_episodes env.episodes_api cfg.max_episodes) ≠ []
            · rw [if_pos hm]
              cases har : env.add_items_result with
              | ok u => right; rfl
              | error e => left; rfl
            · rw [if_neg hm]
              left; rfl
  refine ⟨h, ?_⟩
  rcases h with h2 | h2 <;> omega
